import Mathlib

/-
Verification of the multi-agent conversation examples of the
azure-ai-foundry-examples repository.

The embedded code comes from two notebooks:
  09_agents_with_semantic_kernel/09_5_sk_multi_agent_job_application_prep.ipynb
  08_agents/08_1_simple_agent_personal_learning_coach_azure_monitor_tracing.ipynb

Python strings are modelled as Lean String values; Python slicing and
str.strip are modelled on the underlying character list, which matches
Python semantics (both index by code point).  Python functions that can
raise are modelled with Except or Option results; a function that
catches every exception internally is modelled as a total function.
-/

/- Configuration constants of the 09_5 notebook (Semantic Kernel Configuration
and Data Sources Configuration cells). -/

def WEB_JOB_RESEARCH_AGENT_NAME : String := "Web-Job-Research-Agent"

def RESUME_COPYWRITER_AGENT_NAME : String := "Resume-Copywriter-Agent"

def RESUME_REVIEWER_AGENT_NAME : String := "Resume-Reviewer-Agent"

def INTERVIEW_PREPARATION_AGENT_NAME : String := "Interview-Preparation-Agent"

def RESUME_REVIEW_COMPLETE_KEYWORD : String := "RESUME_REVIEW_COMPLETE"

def PROCESS_COMPLETE : String := "COMPLETE"

def MAXIMUM_CHAT_ITERATIONS : Nat := 12

def USE_MOCK_JOB_POSTING : Bool := true

def JOB_POSTING_MAX_LENGTH : Nat := 8000

/-- A chat message: the author name and the text content.  This is the part
of the semantic-kernel ChatMessageContent the embedded code inspects. -/
structure Message where
  author : String
  content : String
deriving DecidableEq

/-- Python string slicing s[:n], by code points. -/
def pySlice (s : String) (n : Nat) : String := ⟨s.data.take n⟩

/-- Python str.strip: remove leading and trailing whitespace characters. -/
def pyStrip (s : String) : String :=
  ⟨((s.data.dropWhile Char.isWhitespace).reverse.dropWhile Char.isWhitespace).reverse⟩

/-- Does the character list needle begin the character list hay. -/
def leadsWith : List Char → List Char → Bool
  | [], _ => true
  | _ :: _, [] => false
  | n :: ns, h :: hs => n == h && leadsWith ns hs

/-- Does the character list needle occur contiguously inside hay. -/
def occursIn (needle : List Char) : List Char → Bool
  | [] => needle.isEmpty
  | h :: hs => leadsWith needle (h :: hs) || occursIn needle hs

/-- Python substring containment, phrase in s, by code points. -/
def containsPhrase (s phrase : String) : Bool :=
  occursIn phrase.data s.data

/- ------------------------------------------------------------------
Selection strategy of the 09_5 notebook.

The selection_function cell is a KernelFunctionFromPrompt: its policy is a
routing table written into the prompt text, one bullet per author of the
most recent message (the RESPONSE).  The table below is that prompt text,
bullet for bullet:
  - If RESPONSE is user, it is Web-Job-Research-Agent the next turn.
  - If RESPONSE is by Web-Job-Research-Agent, Resume-Reviewer-Agent next.
  - If RESPONSE is by Resume-Reviewer-Agent, Resume-Copywriter-Agent next.
  - If RESPONSE is by Resume-Copywriter-Agent and contains the exact
    phrase RESUME_REVIEW_COMPLETE, Interview-Preparation-Agent is the
    final participant.
  - After Interview-Preparation-Agent has provided guidance, do not
    select any more participants and indicate COMPLETE instead.
------------------------------------------------------------------ -/

/-- Outcome of a routing rule: either a named next participant, or the
COMPLETE sentinel meaning no further participant is selected. -/
inductive NextTurn where
  | next (agentName : String)
  | complete
deriving DecidableEq

/-- One bullet of the selection prompt: fires when the author of the most
recent message equals author and, when requiresKeyword is set, the message
content contains that exact phrase. -/
structure SelectionRule where
  author : String
  requiresKeyword : Option String
  outcome : NextTurn
deriving DecidableEq

/-- The routing table of the selection prompt, one entry per bullet in
prompt order. -/
def selection_rules : List SelectionRule :=
  [ { author := "user", requiresKeyword := none,
      outcome := NextTurn.next WEB_JOB_RESEARCH_AGENT_NAME },
    { author := WEB_JOB_RESEARCH_AGENT_NAME, requiresKeyword := none,
      outcome := NextTurn.next RESUME_REVIEWER_AGENT_NAME },
    { author := RESUME_REVIEWER_AGENT_NAME, requiresKeyword := none,
      outcome := NextTurn.next RESUME_COPYWRITER_AGENT_NAME },
    { author := RESUME_COPYWRITER_AGENT_NAME,
      requiresKeyword := some RESUME_REVIEW_COMPLETE_KEYWORD,
      outcome := NextTurn.next INTERVIEW_PREPARATION_AGENT_NAME },
    { author := INTERVIEW_PREPARATION_AGENT_NAME, requiresKeyword := none,
      outcome := NextTurn.complete } ]

/-- Does a rule fire on the most recent message (author, content). -/
def ruleMatches (r : SelectionRule) (author content : String) : Bool :=
  r.author == author &&
    (match r.requiresKeyword with
     | none => true
     | some kw => containsPhrase content kw)

/-- All rules of the table that fire on the given last message. -/
def matchingRules (author content : String) : List SelectionRule :=
  selection_rules.filter (fun r => ruleMatches r author content)

/-- The outcome of the first rule of the table that fires, if any. -/
def route (author content : String) : Option NextTurn :=
  (selection_rules.find? (fun r => ruleMatches r author content)).map
    (fun r => r.outcome)

/-- The result_parser lambda of the KernelFunctionSelectionStrategy in the
agent_group_chat cell:
  lambda result: str(result.value[0]) if result.value is not None
                 else RESUME_REVIEWER_AGENT_NAME
A present value is a non-empty list of contents; it is modelled as its
first element paired with the rest, since result.value[0] reads the first
element. -/
def resultParser (value : Option (String × List String)) : String :=
  match value with
  | some (v, _) => v
  | none => RESUME_REVIEWER_AGENT_NAME

/- ------------------------------------------------------------------
Termination strategy of the 09_5 notebook: create_termination_strategy
builds a CompletionTerminationStrategy whose should_agent_terminate logs
history[-1] at debug level and returns agent.name == final_agent.name.
The notebook instantiates it with final_agent = interview_preparer_agent,
whose persona name is Interview-Preparation-Agent, and with
maximum_iterations = MAXIMUM_CHAT_ITERATIONS.
------------------------------------------------------------------ -/

/-- State of a CompletionTerminationStrategy object: the fields passed to
the constructor.  The class declares no further mutable attributes. -/
structure CompletionTerminationStrategy where
  agents : List String
  maximum_iterations : Nat
  final_agent_name : String
deriving DecidableEq

/-- The body of should_agent_terminate(self, agent, history): the debug
call evaluates history[-1], which raises IndexError when the history is
empty; otherwise the method returns agent.name == final_agent.name. -/
def should_agent_terminate (final_agent_name : String) (agent_name : String)
    (history : List Message) : Except String Bool :=
  match history.getLast? with
  | none => Except.error "IndexError: list index out of range"
  | some _ => Except.ok (agent_name == final_agent_name)

/-- One invocation of the method on a strategy object: the object is
returned unchanged because the method body assigns no attribute. -/
def should_agent_terminate_call (s : CompletionTerminationStrategy)
    (agent_name : String) (history : List Message) :
    CompletionTerminationStrategy × Except String Bool :=
  (s, should_agent_terminate s.final_agent_name agent_name history)

/- ------------------------------------------------------------------
Tool plugins of the 09_5 notebook.
------------------------------------------------------------------ -/

/-- The body of ResumeReviewerAgentPlugin.load_resume.  The whole body is
one try block: when RESUME_PATH is truthy and RESUME_PATH.strip() is
truthy the file is read and its content returned; a read failure is
caught and an explanatory string returned; when the condition is false
the function falls off the end and returns None.  resume_path stands for
the global RESUME_PATH and read_file for the outcome of opening and
reading it (ok content, or error message of the raised exception). -/
def load_resume (resume_path : String) (read_file : Except String String) :
    Option String :=
  if resume_path ≠ "" ∧ pyStrip resume_path ≠ "" then
    match read_file with
    | Except.ok resume_content => some resume_content
    | Except.error e => some ("Error loading resume: " ++ e)
  else
    none

/-- The body of WebJobResearchAgentPlugin.fetch_job_posting, web-scrape
half: the try block fetches the url, strips the HTML down to text (the
requests call, BeautifulSoup cleaning and regex passes are external and
opaque; web_fetch stands for their combined outcome, the cleaned text, or
error when any step raises), prepends the url reference line, truncates
to JOB_POSTING_MAX_LENGTH, and returns; the bare except clause ends in a
bare return statement, which returns None. -/
def fetch_job_posting_web (web_fetch : Except Unit String) (url : String) :
    Option String :=
  match web_fetch with
  | Except.ok cleaned =>
      let text := "Job posting from: " ++ url ++ "\n\n" ++ cleaned
      some (if text.length > JOB_POSTING_MAX_LENGTH
            then pySlice text JOB_POSTING_MAX_LENGTH else text)
  | Except.error _ => none

/-- The body of WebJobResearchAgentPlugin.fetch_job_posting.  When
USE_MOCK_JOB_POSTING is set, the mock file is read (mock_read stands for
the outcome), truncated to JOB_POSTING_MAX_LENGTH and returned; a read
failure is caught and falls through to the web-scrape half. -/
def fetch_job_posting (use_mock : Bool) (mock_read : Except Unit String)
    (web_fetch : Except Unit String) (url : String) : Option String :=
  if use_mock then
    match mock_read with
    | Except.ok content =>
        some (if content.length > JOB_POSTING_MAX_LENGTH
              then pySlice content JOB_POSTING_MAX_LENGTH else content)
    | Except.error _ => fetch_job_posting_web web_fetch url
  else
    fetch_job_posting_web web_fetch url

/- ------------------------------------------------------------------
The conversation loop.  The 09_5 notebook drives the agents through
AgentGroupChat.invoke of the semantic-kernel library, whose loop body is
not part of this repository.  Sections 4.1 and 3 of the specification
describe that loop, and the definitions below follow them.
------------------------------------------------------------------ -/

/-- Reason a conversation run stopped, from the RunState data model of the
specification. -/
inductive TerminationReason where
  | max_iterations
  | explicit_signal
  | policy_selected_none
deriving DecidableEq

/-- Modelled from the spec: the RunState record of section 3 (the loop
state of the semantic-kernel AgentGroupChat, which is not under src).
last_speaker holds the name of the agent of the most recent turn. -/
structure RunState where
  transcript : List Message
  turn_count : Nat
  last_speaker : Option String
  terminated : Bool
  termination_reason : Option TerminationReason
deriving DecidableEq

/-- Modelled from the spec: the Conversation Loop algorithm of section
4.1 (the semantic-kernel AgentGroupChat invoke loop, which is not under
src).  Each pass: (a) stop with max_iterations when turn_count has
reached max_turns; (b) ask the Selection Policy for the next speaker;
(c) stop with policy_selected_none when it returns none; (d) let the
chosen agent generate a message, append it, increment turn_count and
record the speaker; (e) ask the Termination Policy and stop with
explicit_signal when it says so, else continue. -/
def run_loop (select : List Message → Option String)
    (generate : String → List Message → Message)
    (should_stop : String → List Message → Bool)
    (max_turns : Nat) (st : RunState) : RunState :=
  if _h : max_turns ≤ st.turn_count then
    { st with terminated := true,
              termination_reason := some TerminationReason.max_iterations }
  else
    match select st.transcript with
    | none =>
        { st with terminated := true,
                  termination_reason := some TerminationReason.policy_selected_none }
    | some name =>
        let msg := generate name st.transcript
        let st' : RunState :=
          { transcript := st.transcript ++ [msg],
            turn_count := st.turn_count + 1,
            last_speaker := some name,
            terminated := false,
            termination_reason := none }
        if should_stop name st'.transcript then
          { st' with terminated := true,
                     termination_reason := some TerminationReason.explicit_signal }
        else
          run_loop select generate should_stop max_turns st'
termination_by max_turns - st.turn_count
decreasing_by simp_wf; omega

/-- Modelled from the spec: run(roster, initial_transcript, max_turns) of
section 4.1, starting from turn_count = 0 with the given transcript. -/
def run_conversation (select : List Message → Option String)
    (generate : String → List Message → Message)
    (should_stop : String → List Message → Bool)
    (initial : List Message) (max_turns : Nat) : RunState :=
  run_loop select generate should_stop max_turns
    { transcript := initial, turn_count := 0, last_speaker := none,
      terminated := false, termination_reason := none }

/- ------------------------------------------------------------------
process_thread_run of the 08_1 notebook.  The function repeatedly creates
a run on the thread, polls it to a settled status, retries on a
rate-limit failure or a raised exception with the retry counter
incremented, and returns the run when it completed, None otherwise.
Sleeps and backoff delays only affect timing and are omitted.
------------------------------------------------------------------ -/

/-- The part of a settled run object the function inspects: its status
string and, when the run carries a last_error with a code, that code. -/
structure ThreadRun where
  status : String
  last_error_code : Option String
deriving DecidableEq

/-- Observable outcome of one pass of the while loop in
process_thread_run: either some call in the try block raised (create_run,
get_run, or the rate-limit handling), or the polling loop settled on a
run object. -/
inductive AttemptOutcome where
  | raised
  | polled (r : ThreadRun)
deriving DecidableEq

/-- The rate-limit test of process_thread_run: status is failed and the
last_error code is rate_limit_exceeded (a missing last_error attribute is
a missing code). -/
def rate_limited (r : ThreadRun) : Bool :=
  r.status == "failed" && r.last_error_code == some "rate_limit_exceeded"

/-- The while loop of process_thread_run.  outcomes gives the result of
each successive pass, attempt counts the passes made so far and calls the
create_run invocations.  The loop guard retry_count <= max_retries and
the two retry branches mirror the source; fuel dominates the number of
passes the guards allow so the fuel-exhausted branch is unreachable when
fuel exceeds max_retries + 1. -/
def process_thread_run_aux (outcomes : Nat → AttemptOutcome) (max_retries : Nat) :
    Nat → Nat → Nat → Nat → Option ThreadRun × Nat
  | 0, _, _, calls => (none, calls)
  | fuel + 1, retry_count, attempt, calls =>
    if retry_count ≤ max_retries then
      match outcomes attempt with
      | AttemptOutcome.raised =>
          if retry_count + 1 ≤ max_retries then
            process_thread_run_aux outcomes max_retries fuel (retry_count + 1)
              (attempt + 1) (calls + 1)
          else (none, calls + 1)
      | AttemptOutcome.polled r =>
          if rate_limited r then
            if retry_count + 1 ≤ max_retries then
              process_thread_run_aux outcomes max_retries fuel (retry_count + 1)
                (attempt + 1) (calls + 1)
            else (none, calls + 1)
          else if r.status ≠ "completed" then (none, calls + 1)
          else (some r, calls + 1)
    else (none, calls)

/-- process_thread_run(thread_id, agent_id, max_retries, ...): run the
while loop from retry_count = 0.  The result pairs the returned value
with the number of create_run invocations made. -/
def process_thread_run (outcomes : Nat → AttemptOutcome) (max_retries : Nat) :
    Option ThreadRun × Nat :=
  process_thread_run_aux outcomes max_retries (max_retries + 2) 0 0 0

/- ------------------------------------------------------------------
Helper lemmas.
------------------------------------------------------------------ -/

/-- Python slicing s[:n] yields at most n characters. -/
theorem pySlice_length_le (s : String) (n : Nat) : (pySlice s n).length ≤ n := by
  show (s.data.take n).length ≤ n
  rw [List.length_take]
  omega

/-- The truncation step shared by both halves of fetch_job_posting keeps
the result within JOB_POSTING_MAX_LENGTH. -/
theorem truncated_length_le (t : String) :
    (if t.length > JOB_POSTING_MAX_LENGTH
     then pySlice t JOB_POSTING_MAX_LENGTH else t).length ≤ JOB_POSTING_MAX_LENGTH := by
  split
  · exact pySlice_length_le t _
  · omega

/-- Any rule the selection table fires on a message is a table entry
keyed to the author of that message. -/
theorem route_cases (author content : String) (o : NextTurn)
    (h : route author content = some o) :
    ∃ r, r ∈ selection_rules ∧ r.author = author ∧ r.outcome = o := by
  unfold route at h
  cases hf : selection_rules.find? (fun r => ruleMatches r author content) with
  | none => rw [hf] at h; exact Option.noConfusion h
  | some r =>
      rw [hf] at h
      simp only [Option.map_some', Option.some.injEq] at h
      have hp := List.find?_some hf
      unfold ruleMatches at hp
      have hauth := (Bool.and_eq_true _ _).mp hp |>.1
      exact ⟨r, List.mem_of_find?_eq_some hf, beq_iff_eq.mp hauth, h⟩

/-- Every next-speaker outcome of the selection table names an agent
other than the author it is keyed to. -/
theorem route_next_ne_author (author content nm : String)
    (h : route author content = some (NextTurn.next nm)) : nm ≠ author := by
  obtain ⟨r, hmem, hauth, hout⟩ := route_cases author content _ h
  subst hauth
  fin_cases hmem <;> simp_all [selection_rules] <;> (subst hout; decide)

/-- The last message of the conversation in the C1 counterexample: a
review message authored by Resume-Reviewer-Agent. -/
def c1_last_message : Message :=
  { author := RESUME_REVIEWER_AGENT_NAME,
    content := "Here is my review of the resume." }

/- ------------------------------------------------------------------
Claim theorems.
------------------------------------------------------------------ -/

/-- C1 counterexample: the claim says the selection function, including
the result_parser fallback taken when the underlying selection result is
None, never returns the name of the agent who authored the most recent
message.  But the fallback is the constant Resume-Reviewer-Agent, so when
the most recent message was authored by Resume-Reviewer-Agent and the
selection result is None, the parser returns exactly the author of that
message. -/
theorem C1_fallback_repeats_reviewer :
    resultParser none = c1_last_message.author := rfl

/-- C1 amended: whenever the most recent message was authored by an agent
other than Resume-Reviewer-Agent, the result_parser fallback differs from
that author, and every next-speaker outcome of the routing table in the
selection prompt differs from the author its rule is keyed to. -/
theorem C1_no_self_selection_amended (m : Message)
    (h : m.author ≠ RESUME_REVIEWER_AGENT_NAME) :
    resultParser none ≠ m.author ∧
    ∀ nm, route m.author m.content = some (NextTurn.next nm) → nm ≠ m.author := by
  refine ⟨fun hh => h hh.symm, fun nm hr => route_next_ne_author _ _ _ hr⟩

/-- C1 witness: the amended statement applied to a message authored by
Web-Job-Research-Agent. -/
theorem C1_no_self_selection_witness :
    resultParser none ≠ WEB_JOB_RESEARCH_AGENT_NAME :=
  (C1_no_self_selection_amended
      { author := WEB_JOB_RESEARCH_AGENT_NAME, content := "here is the posting" }
      (by decide)).1

/-- C3: at the failing input (mock job-posting file unreadable, web
request raising), fetch_job_posting executes the bare return statement
and yields None, not the empty string the claim and the function
annotation promise. -/
theorem C3_total_failure_returns_none :
    fetch_job_posting true (Except.error ()) (Except.error ())
      "https://jobs.lever.co/AIFund/29e4750a-61c1-4195-9a11-7889577e3d6f" = none ∧
    fetch_job_posting true (Except.error ()) (Except.error ())
      "https://jobs.lever.co/AIFund/29e4750a-61c1-4195-9a11-7889577e3d6f" ≠ some "" := by
  refine ⟨rfl, ?_⟩
  intro hh
  exact Option.noConfusion hh

/-- C4 counterexample: the claim says that for every speaker and every
transcript the policy returns true exactly when the speaker is the
configured final agent; but on the empty transcript the debug statement
evaluates history[-1] and raises IndexError, so with speaker
Interview-Preparation-Agent and empty history the call does not return
true. -/
theorem C4_empty_history_raises :
    should_agent_terminate INTERVIEW_PREPARATION_AGENT_NAME
      INTERVIEW_PREPARATION_AGENT_NAME ([] : List Message) ≠ Except.ok true := by
  intro hh
  exact Except.noConfusion hh

/-- C4 amended: for every speaker and every non-empty transcript, the
termination policy returns true exactly when the speaker name equals
Interview-Preparation-Agent, and the returned value does not depend on
the transcript at all (any two non-empty histories give the same
result). -/
theorem C4_termination_name_test (agent_name : String) (history : List Message)
    (h : history ≠ []) :
    (should_agent_terminate INTERVIEW_PREPARATION_AGENT_NAME agent_name history =
        Except.ok true ↔ agent_name = INTERVIEW_PREPARATION_AGENT_NAME) ∧
    ∀ history' : List Message, history' ≠ [] →
      should_agent_terminate INTERVIEW_PREPARATION_AGENT_NAME agent_name history' =
        should_agent_terminate INTERVIEW_PREPARATION_AGENT_NAME agent_name history := by
  have key : ∀ hist : List Message, hist ≠ [] →
      should_agent_terminate INTERVIEW_PREPARATION_AGENT_NAME agent_name hist =
        Except.ok (agent_name == INTERVIEW_PREPARATION_AGENT_NAME) := by
    intro hist hne
    unfold should_agent_terminate
    cases hh : hist.getLast? with
    | none => exact absurd (List.getLast?_eq_none_iff.mp hh) hne
    | some m => rfl
  constructor
  · rw [key history h]
    constructor
    · intro hok
      exact beq_iff_eq.mp (Except.ok.inj hok)
    · intro heq
      subst heq
      rw [beq_self_eq_true]
  · intro history' hne
    rw [key history' hne, key history h]

/-- C4 witness: the amended statement applied at speaker
Interview-Preparation-Agent with a one-message transcript. -/
theorem C4_termination_name_test_witness :
    should_agent_terminate INTERVIEW_PREPARATION_AGENT_NAME
      INTERVIEW_PREPARATION_AGENT_NAME [{ author := "user", content := "hello" }] =
      Except.ok true :=
  (C4_termination_name_test INTERVIEW_PREPARATION_AGENT_NAME
      [{ author := "user", content := "hello" }] (by simp)).1.mpr rfl

/-- C5 counterexample: the claim says every roster author has exactly one
matching rule unconditional on message content; but the rule keyed to
Resume-Copywriter-Agent is conditional on the content containing the
phrase RESUME_REVIEW_COMPLETE: a copywriter message without the phrase
matches no rule, while one with the phrase does. -/
theorem C5_copywriter_rule_content_dependent :
    matchingRules RESUME_COPYWRITER_AGENT_NAME "I have updated the resume." = [] ∧
    matchingRules RESUME_COPYWRITER_AGENT_NAME
      ("The resume is ready. " ++ RESUME_REVIEW_COMPLETE_KEYWORD) ≠ [] := by
  constructor
  · decide
  · decide

/-- C5 amended: the routing table has exactly one rule, unconditional on
content, for each of the user author, Web-Job-Research-Agent and
Resume-Reviewer-Agent; exactly one rule for Resume-Copywriter-Agent that
fires precisely when the content contains RESUME_REVIEW_COMPLETE; and
the rule for the final agent Interview-Preparation-Agent maps to the
no-further-speaker sentinel. -/
theorem C5_routing_table_amended :
    (∀ content, matchingRules "user" content =
      [{ author := "user", requiresKeyword := none,
         outcome := NextTurn.next WEB_JOB_RESEARCH_AGENT_NAME }]) ∧
    (∀ content, matchingRules WEB_JOB_RESEARCH_AGENT_NAME content =
      [{ author := WEB_JOB_RESEARCH_AGENT_NAME, requiresKeyword := none,
         outcome := NextTurn.next RESUME_REVIEWER_AGENT_NAME }]) ∧
    (∀ content, matchingRules RESUME_REVIEWER_AGENT_NAME content =
      [{ author := RESUME_REVIEWER_AGENT_NAME, requiresKeyword := none,
         outcome := NextTurn.next RESUME_COPYWRITER_AGENT_NAME }]) ∧
    (∀ content, matchingRules RESUME_COPYWRITER_AGENT_NAME content =
      if containsPhrase content RESUME_REVIEW_COMPLETE_KEYWORD then
        [{ author := RESUME_COPYWRITER_AGENT_NAME,
           requiresKeyword := some RESUME_REVIEW_COMPLETE_KEYWORD,
           outcome := NextTurn.next INTERVIEW_PREPARATION_AGENT_NAME }]
      else []) ∧
    (∀ content, route INTERVIEW_PREPARATION_AGENT_NAME content =
      some NextTurn.complete) := by
  refine ⟨fun content => rfl, fun content => rfl, fun content => rfl, ?_, fun content => rfl⟩
  intro content
  cases hc : containsPhrase content RESUME_REVIEW_COMPLETE_KEYWORD with
  | false =>
      simp only [matchingRules, selection_rules, List.filter, ruleMatches, hc]
      decide
  | true =>
      simp only [matchingRules, selection_rules, List.filter, ruleMatches, hc]
      decide

/-- C6 counterexample: the claim says the result_parser fallback value
when the selection result is None equals the first agent name
Web-Job-Research-Agent; it does not. -/
theorem C6_fallback_not_first_agent :
    ¬ (resultParser none = WEB_JOB_RESEARCH_AGENT_NAME) := by decide

/-- C6 amended: the result_parser fallback when the selection result is
None is the constant Resume-Reviewer-Agent, while the routing table does
map the synthetic user author to Web-Job-Research-Agent. -/
theorem C6_fallback_is_reviewer :
    resultParser none = RESUME_REVIEWER_AGENT_NAME ∧
    ∀ content, route "user" content =
      some (NextTurn.next WEB_JOB_RESEARCH_AGENT_NAME) :=
  ⟨rfl, fun _ => rfl⟩

/-- C7: the termination policy is idempotent and deterministic: a call
leaves the strategy object unchanged, and a second call on the same
(speaker, transcript) pair returns the same result. -/
theorem C7_termination_idempotent (s : CompletionTerminationStrategy)
    (agent_name : String) (history : List Message) :
    (should_agent_terminate_call s agent_name history).1 = s ∧
    (should_agent_terminate_call
        (should_agent_terminate_call s agent_name history).1 agent_name history).2 =
      (should_agent_terminate_call s agent_name history).2 :=
  ⟨rfl, rfl⟩

/-- C8: load_resume returns None when the configured path is empty or
whitespace-only, returns the error string exactly on the read-failure
path of a non-empty path, and returns the file content verbatim on the
successful path; it never propagates an exception (the embedding is a
total function into Option String). -/
theorem C8_load_resume_paths :
    (∀ r : Except String String, ∀ p : String, pyStrip p = "" →
        load_resume p r = none) ∧
    (∀ p e, pyStrip p ≠ "" →
        load_resume p (Except.error e) = some ("Error loading resume: " ++ e)) ∧
    (∀ p c, pyStrip p ≠ "" → load_resume p (Except.ok c) = some c) := by
  refine ⟨?_, ?_, ?_⟩
  · intro r p hp
    simp [load_resume, hp]
  · intro p e hp
    have hne : p ≠ "" := fun h => hp (by rw [h]; rfl)
    simp [load_resume, hne, hp]
  · intro p c hp
    have hne : p ≠ "" := fun h => hp (by rw [h]; rfl)
    simp [load_resume, hne, hp]

/-- C8 witness: the three clauses applied at concrete inputs. -/
theorem C8_load_resume_paths_witness :
    load_resume " \t" (Except.ok "resume text") = none ∧
    load_resume "09_5_mock_resume.txt" (Except.error "no such file") =
      some ("Error loading resume: " ++ "no such file") ∧
    load_resume "09_5_mock_resume.txt" (Except.ok "resume text") = some "resume text" :=
  ⟨C8_load_resume_paths.1 (Except.ok "resume text") " \t" (by decide),
   C8_load_resume_paths.2.1 "09_5_mock_resume.txt" "no such file" (by decide),
   C8_load_resume_paths.2.2 "09_5_mock_resume.txt" "resume text" (by decide)⟩

/-- C9: every string returned by fetch_job_posting, on the mock path or
on the web path (where the url prefix is prepended before truncating),
has length at most JOB_POSTING_MAX_LENGTH. -/
theorem C9_fetch_job_posting_bounded (use_mock : Bool)
    (mock_read web_fetch : Except Unit String) (url s : String)
    (h : fetch_job_posting use_mock mock_read web_fetch url = some s) :
    s.length ≤ JOB_POSTING_MAX_LENGTH := by
  have hweb : ∀ s₀, fetch_job_posting_web web_fetch url = some s₀ →
      s₀.length ≤ JOB_POSTING_MAX_LENGTH := by
    intro s₀ h₀
    cases web_fetch with
    | ok cleaned =>
        simp only [fetch_job_posting_web, Option.some.injEq] at h₀
        rw [← h₀]
        exact truncated_length_le _
    | error e => exact Option.noConfusion h₀
  unfold fetch_job_posting at h
  split at h
  · cases mock_read with
    | ok content =>
        simp only [Option.some.injEq] at h
        rw [← h]
        exact truncated_length_le _
    | error u => exact hweb s h
  · exact hweb s h

/-- C9 witness: the bound applied to a concrete mock-path run. -/
theorem C9_fetch_job_posting_bounded_witness :
    ("mock job posting" : String).length ≤ JOB_POSTING_MAX_LENGTH :=
  C9_fetch_job_posting_bounded true (Except.ok "mock job posting")
    (Except.error ()) "https://example.com/job" "mock job posting" (by decide)

/-- The iteration cap of the conversation loop: from any state already
within the cap, the loop never pushes turn_count past max_turns,
whatever the three policies do. -/
theorem run_loop_turn_count_le (select : List Message → Option String)
    (generate : String → List Message → Message)
    (should_stop : String → List Message → Bool)
    (max_turns : Nat) :
    ∀ st : RunState, st.turn_count ≤ max_turns →
      (run_loop select generate should_stop max_turns st).turn_count ≤ max_turns := by
  have aux : ∀ fuel st, max_turns - st.turn_count ≤ fuel →
      st.turn_count ≤ max_turns →
      (run_loop select generate should_stop max_turns st).turn_count ≤ max_turns := by
    intro fuel
    induction fuel with
    | zero =>
        intro st hf hle
        rw [run_loop]
        have hcap : max_turns ≤ st.turn_count := by omega
        simp [hcap]
        omega
    | succ n ih =>
        intro st hf hle
        rw [run_loop]
        by_cases hcap : max_turns ≤ st.turn_count
        · simp [hcap]; omega
        · simp only [hcap, dite_false]
          cases hsel : select st.transcript with
          | none => simpa using hle
          | some name =>
              simp only []
              by_cases hstop :
                  should_stop name (st.transcript ++ [generate name st.transcript])
              · simp [hstop]; omega
              · simp only [hstop, if_false]
                exact ih _ (by simp; omega) (by simp; omega)
  intro st h
  exact aux (max_turns - st.turn_count) st le_rfl h

/-- C2: for every ceiling max_turns and every behaviour of the Selection
Policy, the generator and the Termination Policy, a conversation run
executes at most max_turns agent turns: starting from turn_count = 0,
the final turn_count (which counts the executed turns, one increment per
generated message) never exceeds max_turns.  In the notebook the ceiling
is MAXIMUM_CHAT_ITERATIONS = 12. -/
theorem C2_iteration_cap (select : List Message → Option String)
    (generate : String → List Message → Message)
    (should_stop : String → List Message → Bool)
    (initial : List Message) (max_turns : Nat) :
    (run_conversation select generate should_stop initial max_turns).turn_count ≤
      max_turns :=
  run_loop_turn_count_le select generate should_stop max_turns _ (Nat.zero_le _)

/-- Every run the while loop of process_thread_run hands back has status
completed: the loop returns None on every other path. -/
theorem process_thread_run_aux_completed (outcomes : Nat → AttemptOutcome)
    (max_retries : Nat) :
    ∀ fuel retry_count attempt calls r,
      (process_thread_run_aux outcomes max_retries fuel retry_count attempt calls).1 =
        some r → r.status = "completed" := by
  intro fuel
  induction fuel with
  | zero =>
      intro rc att calls r h
      exact Option.noConfusion h
  | succ n ih =>
      intro rc att calls r h
      rw [process_thread_run_aux] at h
      split at h
      · split at h
        · split at h
          · exact ih _ _ _ _ h
          · exact Option.noConfusion h
        · split at h
          · split at h
            · exact ih _ _ _ _ h
            · exact Option.noConfusion h
          · split at h
            · exact Option.noConfusion h
            · rename_i hstatus
              simp only [Option.some.injEq] at h
              rw [← h]
              simpa using hstatus
      · exact Option.noConfusion h

/-- The while loop of process_thread_run makes at most one create_run
call per pass and at most max_retries + 1 - retry_count further passes. -/
theorem process_thread_run_aux_calls_le (outcomes : Nat → AttemptOutcome)
    (max_retries : Nat) :
    ∀ fuel retry_count attempt calls,
      (process_thread_run_aux outcomes max_retries fuel retry_count attempt calls).2 ≤
        calls + (max_retries + 1 - retry_count) := by
  intro fuel
  induction fuel with
  | zero =>
      intro rc att calls
      dsimp only [process_thread_run_aux]
      omega
  | succ n ih =>
      intro rc att calls
      rw [process_thread_run_aux]
      split
      · rename_i hrc
        split
        · split
          · rename_i hrc1
            have := ih (rc + 1) (att + 1) (calls + 1)
            omega
          · dsimp only
            omega
        · split
          · split
            · rename_i hrc1
              have := ih (rc + 1) (att + 1) (calls + 1)
              omega
            · dsimp only
              omega
          · split
            · dsimp only
              omega
            · dsimp only
              omega
      · dsimp only
        omega

/-- C10: process_thread_run never propagates an exception (its embedding
is total over every outcome sequence); it returns either a run whose
status is completed or None; and it makes at most max_retries + 1
create_run calls. -/
theorem C10_process_thread_run_safe (outcomes : Nat → AttemptOutcome)
    (max_retries : Nat) :
    (∀ r, (process_thread_run outcomes max_retries).1 = some r →
        r.status = "completed") ∧
    (process_thread_run outcomes max_retries).2 ≤ max_retries + 1 := by
  constructor
  · intro r h
    exact process_thread_run_aux_completed outcomes max_retries _ _ _ _ r h
  · have := process_thread_run_aux_calls_le outcomes max_retries (max_retries + 2) 0 0 0
    unfold process_thread_run
    omega

/-- C10 witness: the completed-status clause applied to a run that
settles as completed on the first pass. -/
theorem C10_process_thread_run_safe_witness :
    ({ status := "completed", last_error_code := none } : ThreadRun).status =
      "completed" :=
  (C10_process_thread_run_safe
      (fun _ => AttemptOutcome.polled { status := "completed", last_error_code := none }) 3).1
    { status := "completed", last_error_code := none } (by decide)
